import Mathlib

set_option maxRecDepth 4000

/-!
Verification of the OTA update orchestration core of the cat-collar firmware.

The definitions below are a shallow embedding of the C sources under
`yq-catcollar-mainboard/wifi_app/`, chiefly `wifi_ota_manager.c` (the
enhanced AWS-S3 variant, the one carrying the retry loop and abort flag),
`version_manager.c`/`version_manager.h` and
`simplified_version_downloader.c`.  Machine integers are modelled as `Nat`
(or `Int` where C `int` sign matters) with explicit `% 2^w` at the points
where the C performs a narrowing conversion or can overflow.  External
collaborators (Wi-Fi link state, the DNS primitive, the HTTP OTAF engine,
the RTOS semaphore) are modelled as oracle inputs; delays and attempts are
recorded in an event trace so that timing-shape properties can be stated.
-/

/-- Mirrors `sl_status_t` restricted to the codes this module produces or
tests (`SL_STATUS_OK`, `SL_STATUS_FAIL`, `SL_STATUS_BUSY`,
`SL_STATUS_ABORT`, `SL_STATUS_TIMEOUT`, `SL_STATUS_IN_PROGRESS`,
`SL_STATUS_NULL_POINTER`, `SL_STATUS_INVALID_PARAMETER`). -/
inductive SlStatus where
  | ok
  | fail
  | busy
  | abort
  | timeout
  | inProgress
  | nullPointer
  | invalidParameter
deriving DecidableEq, Repr

/-- Mirrors `catcollar_ota_state_t` (wifi_ota_config.h, lines 58-69). -/
inductive OtaState where
  | idle
  | initializing
  | resolvingDns
  | checkingVersion
  | downloading
  | verifying
  | installing
  | rebooting
  | success
  | failed
deriving DecidableEq, Repr

/-- Mirrors `catcollar_ota_status_t` (wifi_ota_config.h, lines 72-84).
Note that the enum has no `Aborted` member. -/
inductive OtaStatus where
  | noUpdateAvailable
  | updateAvailable
  | downloadInProgress
  | downloadSuccess
  | downloadFailed
  | verifyFailed
  | installFailed
  | networkError
  | dnsResolutionFailed
  | certificateError
  | timeoutError
deriving DecidableEq, Repr

/-- Mirrors `firmware_version_t` / `catcollar_firmware_version_t`:
`uint8_t major, minor, patch; uint16_t build`.  Fields are `Nat`; the
narrowing casts in the parser apply `% 256` / `% 65536` explicitly. -/
structure FirmwareVersion where
  major : Nat
  minor : Nat
  patch : Nat
  build : Nat
deriving DecidableEq, Repr

/-- Mirrors `version_compare_result_t` (version_manager.h, lines 31-35). -/
inductive VersionCompareResult where
  | older
  | same
  | newer
deriving DecidableEq, Repr

/-- The field-by-field body of `version_manager_compare_versions`
(version_manager.c, lines 240-256): major, then minor, then patch, then
build. -/
def versionFieldsCompare (l r : FirmwareVersion) : VersionCompareResult :=
  if r.major > l.major then .newer
  else if r.major < l.major then .older
  else if r.minor > l.minor then .newer
  else if r.minor < l.minor then .older
  else if r.patch > l.patch then .newer
  else if r.patch < l.patch then .older
  else if r.build > l.build then .newer
  else if r.build < l.build then .older
  else .same

/-- Mirrors `version_manager_compare_versions` (version_manager.c, lines
234-257).  The C takes two pointers and returns `VERSION_SAME` when either
is NULL; a NULL pointer is modelled as `none`. -/
def version_manager_compare_versions
    (lv rv : Option FirmwareVersion) : VersionCompareResult :=
  match lv, rv with
  | none, _ => .same
  | _, none => .same
  | some l, some r => versionFieldsCompare l r

theorem vmcv_none_left (rv : Option FirmwareVersion) :
    version_manager_compare_versions none rv = .same := by
  cases rv <;> rfl

theorem vmcv_none_right (lv : Option FirmwareVersion) :
    version_manager_compare_versions lv none = .same := by
  cases lv <;> rfl

theorem vmcv_some_some (l r : FirmwareVersion) :
    version_manager_compare_versions (some l) (some r) = versionFieldsCompare l r := rfl

/-- Mirrors the static `ota_compare_versions` (wifi_ota_manager.c, lines
525-541): returns true iff the server version is strictly newer than the
current one, comparing major, minor, patch, build lexicographically. -/
def ota_compare_versions (current server : FirmwareVersion) : Bool :=
  if server.major > current.major then true
  else if server.major < current.major then false
  else if server.minor > current.minor then true
  else if server.minor < current.minor then false
  else if server.patch > current.patch then true
  else if server.patch < current.patch then false
  else if server.build > current.build then true
  else false

/-- Strict lexicographic order on (major, minor, patch, build): `b` is
newer than `a`.  Used only to characterise the two comparison functions. -/
def lexNewer (a b : FirmwareVersion) : Prop :=
  b.major > a.major ∨ (b.major = a.major ∧
    (b.minor > a.minor ∨ (b.minor = a.minor ∧
      (b.patch > a.patch ∨ (b.patch = a.patch ∧ b.build > a.build)))))

theorem compare_eq_newer_iff (a b : FirmwareVersion) :
    version_manager_compare_versions (some a) (some b) = .newer ↔ lexNewer a b := by
  rw [vmcv_some_some]
  unfold versionFieldsCompare lexNewer
  split_ifs <;> simp <;> omega

theorem compare_eq_older_iff (a b : FirmwareVersion) :
    version_manager_compare_versions (some a) (some b) = .older ↔ lexNewer b a := by
  rw [vmcv_some_some]
  unfold versionFieldsCompare lexNewer
  split_ifs <;> simp <;> omega

theorem compare_eq_same_iff (a b : FirmwareVersion) :
    version_manager_compare_versions (some a) (some b) = .same ↔ a = b := by
  rw [vmcv_some_some]
  cases a; cases b
  unfold versionFieldsCompare
  split_ifs <;> simp_all <;> omega

theorem ota_compare_eq_newer (c s : FirmwareVersion) :
    ota_compare_versions c s = true ↔
      version_manager_compare_versions (some c) (some s) = .newer := by
  rw [vmcv_some_some]
  unfold ota_compare_versions versionFieldsCompare
  split_ifs <;> simp

/-- C4: the version comparison is reflexive (`compare(v,v) = Same`),
antisymmetric in the spec's sense (`compare(a,b) = Newer` iff
`compare(b,a) = Older`), and transitive, i.e. a lexicographic total order
on (major, minor, patch, build). -/
theorem C4_version_compare_total_order :
    (∀ a : FirmwareVersion,
       version_manager_compare_versions (some a) (some a) = .same)
    ∧ (∀ a b : FirmwareVersion,
       version_manager_compare_versions (some a) (some b) = .newer ↔
         version_manager_compare_versions (some b) (some a) = .older)
    ∧ (∀ a b c : FirmwareVersion,
       version_manager_compare_versions (some a) (some b) = .newer →
       version_manager_compare_versions (some b) (some c) = .newer →
       version_manager_compare_versions (some a) (some c) = .newer) := by
  refine ⟨?_, ?_, ?_⟩
  · intro a
    exact (compare_eq_same_iff a a).mpr rfl
  · intro a b
    rw [compare_eq_newer_iff, compare_eq_older_iff]
  · intro a b c hab hbc
    rw [compare_eq_newer_iff] at hab hbc ⊢
    unfold lexNewer at hab hbc ⊢
    omega

/-- C4 witness: the transitivity branch applied at concrete versions. -/
theorem C4_version_compare_total_order_witness :
    version_manager_compare_versions (some ⟨1, 0, 0, 1⟩) (some ⟨1, 0, 2, 0⟩) = .newer
    ∧ version_manager_compare_versions (some ⟨1, 0, 2, 0⟩) (some ⟨2, 0, 0, 0⟩) = .newer
    ∧ version_manager_compare_versions (some ⟨1, 0, 0, 1⟩) (some ⟨2, 0, 0, 0⟩) = .newer :=
  ⟨by decide, by decide,
    C4_version_compare_total_order.2.2 ⟨1, 0, 0, 1⟩ ⟨1, 0, 2, 0⟩ ⟨2, 0, 0, 0⟩
      (by decide) (by decide)⟩

/-- Mirrors `catcollar_get_current_version` (wifi_ota_manager.c, lines
244-252) with the compiled-in constants of wifi_ota_config.h (1.0.0.1). -/
def catcollar_get_current_version : FirmwareVersion := ⟨1, 0, 0, 1⟩

/-- C9: passing a NULL pointer for either version makes
`version_manager_compare_versions` return `Same` instead of faulting, so a
missing version is observed as "no update needed"; on non-NULL arguments
`Same` characterises equality, and the NULL behaviour breaks that
(`Same` is returned for a pair of distinct arguments). -/
theorem C9_null_compare_returns_same :
    (∀ lv rv : Option FirmwareVersion, lv = none ∨ rv = none →
       version_manager_compare_versions lv rv = .same)
    ∧ (∀ lv : Option FirmwareVersion,
       version_manager_compare_versions none lv ≠ .newer)
    ∧ (∀ a b : FirmwareVersion,
       version_manager_compare_versions (some a) (some b) = .same ↔ a = b)
    ∧ (version_manager_compare_versions (some catcollar_get_current_version) none = .same
       ∧ (some catcollar_get_current_version ≠ (none : Option FirmwareVersion))) := by
  refine ⟨?_, ?_, compare_eq_same_iff, by decide, by decide⟩
  · rintro lv rv (rfl | rfl)
    · exact vmcv_none_left rv
    · exact vmcv_none_right lv
  · intro lv
    rw [vmcv_none_left]
    decide

/-- C9 witness: the NULL rule applied at a concrete pair. -/
theorem C9_null_compare_returns_same_witness :
    ((none : Option FirmwareVersion) = none
      ∨ (some catcollar_get_current_version : Option FirmwareVersion) = none)
    ∧ version_manager_compare_versions none (some catcollar_get_current_version) = .same :=
  ⟨Or.inl rfl,
    C9_null_compare_returns_same.1 none (some catcollar_get_current_version) (Or.inl rfl)⟩

/-! Section: version-string parsing (version_manager.c / version_manager.h)

The repository contains two divergent `parse_version_string` variants: the
one in version_manager.c (lines 72-104) demands exactly four
`sscanf("%d.%d.%d.%d")` conversions, while the copy embedded in
version_manager.h (lines 130-163) demands exactly three
(`"%d.%d.%d"`) and defaults `build` to 0.  Both first copy the input into
a 32-byte buffer with `strncpy` (truncating to 31 characters) and strip
trailing `'\r' '\n' ' ' '\t'`.  The `sscanf` model below implements the
C semantics of the `%d` directive (skip leading whitespace, optional
sign, at least one decimal digit) and of a literal `'.'` (must match the
next character exactly); the return value is the number of successful
conversions. -/

/-- Characters the C `isspace` recognises (the `%d` directive skips
them). -/
def isCSpace (c : Char) : Bool :=
  c = ' ' || c = '\t' || c = '\n' || c = '\r' || c = '\x0b' || c = '\x0c'

def dropLeadingSpaces : List Char → List Char
  | [] => []
  | c :: cs => if isCSpace c then dropLeadingSpaces cs else c :: cs

/-- Consume a maximal run of decimal digits, accumulating their value. -/
def takeDigitsAcc : Nat → List Char → Nat × List Char
  | acc, [] => (acc, [])
  | acc, c :: cs =>
    if c.isDigit then takeDigitsAcc (acc * 10 + (c.toNat - 48)) cs
    else (acc, c :: cs)

/-- One or more digits, or failure. -/
def scanUnsigned (cs : List Char) : Option (Nat × List Char) :=
  match cs with
  | [] => none
  | c :: cs' => if c.isDigit then some (takeDigitsAcc 0 (c :: cs')) else none

/-- The `%d` directive: optional whitespace, optional sign, digits. -/
def scanInt (cs : List Char) : Option (Int × List Char) :=
  match dropLeadingSpaces cs with
  | '-' :: rest => (scanUnsigned rest).map (fun p => (-(p.1 : Int), p.2))
  | '+' :: rest => (scanUnsigned rest).map (fun p => ((p.1 : Int), p.2))
  | other => (scanUnsigned other).map (fun p => ((p.1 : Int), p.2))

/-- A literal character in the format string: must match exactly. -/
def matchLit (c : Char) (cs : List Char) : Option (List Char) :=
  match cs with
  | [] => none
  | c' :: r => if c' = c then some r else none

/-- `sscanf(s, "%d.%d.%d.%d", ...)`: returns the number of conversions
performed and the converted values (unconverted slots are unspecified in
C; 0 here). -/
def sscanf_dddd (cs : List Char) : Nat × Int × Int × Int × Int :=
  match scanInt cs with
  | none => (0, 0, 0, 0, 0)
  | some (a, r1) =>
    match matchLit '.' r1 with
    | none => (1, a, 0, 0, 0)
    | some r2 =>
      match scanInt r2 with
      | none => (1, a, 0, 0, 0)
      | some (b, r3) =>
        match matchLit '.' r3 with
        | none => (2, a, b, 0, 0)
        | some r4 =>
          match scanInt r4 with
          | none => (2, a, b, 0, 0)
          | some (c, r5) =>
            match matchLit '.' r5 with
            | none => (3, a, b, c, 0)
            | some r6 =>
              match scanInt r6 with
              | none => (3, a, b, c, 0)
              | some (d, _) => (4, a, b, c, d)

/-- `sscanf(s, "%d.%d.%d", ...)` for the three-field variant. -/
def sscanf_ddd (cs : List Char) : Nat × Int × Int × Int :=
  match scanInt cs with
  | none => (0, 0, 0, 0)
  | some (a, r1) =>
    match matchLit '.' r1 with
    | none => (1, a, 0, 0)
    | some r2 =>
      match scanInt r2 with
      | none => (1, a, 0, 0)
      | some (b, r3) =>
        match matchLit '.' r3 with
        | none => (2, a, b, 0)
        | some r4 =>
          match scanInt r4 with
          | none => (2, a, b, 0)
          | some (c, _) => (3, a, b, c)

/-- Strip trailing `'\r' '\n' ' ' '\t'` (version_manager.c, lines 84-88). -/
def trimTrailingWs (cs : List Char) : List Char :=
  (cs.reverse.dropWhile
    (fun c => c = '\r' || c = '\n' || c = ' ' || c = '\t')).reverse

/-- Mirrors `parse_version_string` of version_manager.c (lines 72-104):
`strncpy` into a 32-byte buffer (truncation to 31 characters), trailing
whitespace strip, then `sscanf("%d.%d.%d.%d")`; anything but exactly 4
conversions is `SL_STATUS_INVALID_PARAMETER`.  The stores
`(uint8_t)major` … `(uint16_t)build` are the C narrowing conversions,
i.e. reduction modulo 2^8 / 2^16 — there is no range check. -/
def parse_version_string (s : String) : Except SlStatus FirmwareVersion :=
  let clean := trimTrailingWs (s.data.take 31)
  match sscanf_dddd clean with
  | (4, a, b, c, d) =>
    .ok { major := (a % 256).toNat, minor := (b % 256).toNat,
          patch := (c % 256).toNat, build := (d % 65536).toNat }
  | _ => .error .invalidParameter

/-- Mirrors the divergent `parse_version_string` copy in
version_manager.h (lines 130-163): exactly 3 conversions of
`sscanf("%d.%d.%d")`, `build` defaulted to 0.  Note `sscanf` stops after
the third field, so a trailing `".5"` is silently ignored. -/
def parse_version_string_3field (s : String) : Except SlStatus FirmwareVersion :=
  let clean := trimTrailingWs (s.data.take 31)
  match sscanf_ddd clean with
  | (3, a, b, c) =>
    .ok { major := (a % 256).toNat, minor := (b % 256).toNat,
          patch := (c % 256).toNat, build := 0 }
  | _ => .error .invalidParameter

deriving instance DecidableEq for Except

/-- C5 counterexample: the parser actually in version_manager.c rejects
the three-field string `"1.0.2"` (the claim says it parses to
`{1,0,2,0}`), and it accepts the out-of-range `"300.0.0.0"`, truncating
300 to 44 modulo 256 (the claim says any out-of-range value fails). -/
theorem C5_parse_counterexample :
    parse_version_string "1.0.2" = .error .invalidParameter
    ∧ parse_version_string "300.0.0.0" = .ok ⟨44, 0, 0, 0⟩ := by
  constructor <;> decide

/-- C5 (amended): after truncation to 31 characters and trimming of
trailing whitespace, `parse_version_string` (version_manager.c) accepts
exactly 4 dot-separated numeric fields, rejecting any other conversion
count (including plain `"1.0.2"` and non-numeric input) with
`SL_STATUS_INVALID_PARAMETER`; numeric fields are not range-checked but
narrowed modulo 256 (major/minor/patch) and 65536 (build), so every
version it produces is field-bounded.  The divergent copy in
version_manager.h accepts exactly 3 leading fields, defaults build to 0,
and silently ignores a trailing fourth field. -/
theorem C5_parse_amended :
    parse_version_string "1.0.2.5" = .ok ⟨1, 0, 2, 5⟩
    ∧ parse_version_string " 1.0.2.5 \r\n" = .ok ⟨1, 0, 2, 5⟩
    ∧ parse_version_string "1.0.2" = .error .invalidParameter
    ∧ parse_version_string "1.0" = .error .invalidParameter
    ∧ parse_version_string "x.y.z" = .error .invalidParameter
    ∧ parse_version_string "300.0.0.70000" = .ok ⟨44, 0, 0, 4464⟩
    ∧ parse_version_string_3field "1.0.2" = .ok ⟨1, 0, 2, 0⟩
    ∧ parse_version_string_3field "1.0.2.5" = .ok ⟨1, 0, 2, 0⟩
    ∧ (∀ s v, parse_version_string s = .ok v →
        v.major < 256 ∧ v.minor < 256 ∧ v.patch < 256 ∧ v.build < 65536) := by
  refine ⟨by decide, by decide, by decide, by decide, by decide, by decide,
    by decide, by decide, ?_⟩
  intro s v h
  simp only [parse_version_string] at h
  rcases hs : sscanf_dddd (trimTrailingWs (s.data.take 31)) with ⟨n, a, b, c, d⟩
  rw [hs] at h
  match n, h with
  | 4, h =>
    cases h
    have ha := Int.emod_lt_of_pos a (by decide : (0 : Int) < 256)
    have ha0 := Int.emod_nonneg a (by decide : (256 : Int) ≠ 0)
    have hb := Int.emod_lt_of_pos b (by decide : (0 : Int) < 256)
    have hb0 := Int.emod_nonneg b (by decide : (256 : Int) ≠ 0)
    have hc := Int.emod_lt_of_pos c (by decide : (0 : Int) < 256)
    have hc0 := Int.emod_nonneg c (by decide : (256 : Int) ≠ 0)
    have hd := Int.emod_lt_of_pos d (by decide : (0 : Int) < 65536)
    have hd0 := Int.emod_nonneg d (by decide : (65536 : Int) ≠ 0)
    refine ⟨?_, ?_, ?_, ?_⟩ <;>
      · simp only
        omega
  | 0, h => cases h
  | 1, h => cases h
  | 2, h => cases h
  | 3, h => cases h
  | (k+5), h => cases h

/-- C5 witness: the bounds clause of the amended theorem applied to the
concrete input `"1.0.2.5"`. -/
theorem C5_parse_amended_witness :
    parse_version_string "1.0.2.5" = .ok ⟨1, 0, 2, 5⟩
    ∧ ((1 : Nat) < 256 ∧ (0 : Nat) < 256 ∧ (2 : Nat) < 256 ∧ (5 : Nat) < 65536) :=
  ⟨by decide,
    C5_parse_amended.2.2.2.2.2.2.2.2 "1.0.2.5" ⟨1, 0, 2, 5⟩ (by decide)⟩

/-! Section: progress percentage (wifi_ota_manager.c, lines 292-300) -/

/-- Mirrors `catcollar_ota_get_progress_percentage`: the inputs are the
`uint32_t` statics `ota_bytes_downloaded` / `ota_total_bytes`.  The C
computes `(uint8_t)((ota_bytes_downloaded * 100) / ota_total_bytes)` —
the product wraps modulo 2^32 and the quotient is narrowed modulo 2^8
*before* the `> 100` clamp. -/
def catcollar_ota_get_progress_percentage
    (bytesDownloaded totalBytes : Nat) : Nat :=
  if totalBytes = 0 then 0
  else
    let percentage := bytesDownloaded * 100 % 4294967296 / totalBytes % 256
    if percentage > 100 then 100 else percentage

/-- C6 counterexample: with `bytes_downloaded = 3`, `total_bytes = 1`
the exact clamped value is `min (3*100/1) 100 = 100`, but the code
narrows the quotient 300 to `(uint8_t)300 = 44` before clamping and
returns 44. -/
theorem C6_percentage_counterexample :
    catcollar_ota_get_progress_percentage 3 1 = 44
    ∧ min (3 * 100 / 1) 100 = 100
    ∧ catcollar_ota_get_progress_percentage 3 1 ≠ min (3 * 100 / 1) 100 := by
  refine ⟨by decide, by decide, by decide⟩

/-- C6 (amended): `total_bytes = 0` yields 0; otherwise the result is the
exact `clamp(bytes*100/total, 0, 100)` only on the domain where the
32-bit product does not wrap and the quotient fits in `uint8_t`
(`bytes*100 < 2^32` and `bytes*100/total ≤ 255`); outside that domain the
narrowing conversions make the result deviate from the exact formula. -/
theorem C6_percentage_amended :
    (∀ b : Nat, catcollar_ota_get_progress_percentage b 0 = 0)
    ∧ (∀ b t : Nat, t ≠ 0 → b * 100 < 4294967296 → b * 100 / t ≤ 255 →
        catcollar_ota_get_progress_percentage b t = min (b * 100 / t) 100) := by
  constructor
  · intro b
    rfl
  · intro b t ht hsmall hq
    unfold catcollar_ota_get_progress_percentage
    rw [if_neg ht]
    simp only [Nat.mod_eq_of_lt hsmall, Nat.mod_eq_of_lt (by omega : b * 100 / t < 256)]
    rcases Nat.lt_or_ge 100 (b * 100 / t) with h | h
    · rw [if_pos h, Nat.min_eq_right (by omega)]
    · rw [if_neg (by omega), Nat.min_eq_left h]

/-- C6 witness: the amended in-range equation at bytes 5000 of 10000. -/
theorem C6_percentage_amended_witness :
    (10000 : Nat) ≠ 0 ∧ (5000 : Nat) * 100 < 4294967296
    ∧ (5000 : Nat) * 100 / 10000 ≤ 255
    ∧ catcollar_ota_get_progress_percentage 5000 10000 = min (5000 * 100 / 10000) 100 :=
  ⟨by decide, by decide, by decide,
    C6_percentage_amended.2 5000 10000 (by decide) (by decide) (by decide)⟩

/-- C7: for every pair of `uint32_t` counter values — including those
where `bytes_downloaded` exceeds `total_bytes` — the progress percentage
lies in [0, 100]. -/
theorem C7_percentage_in_range :
    ∀ bytesDownloaded totalBytes : Nat,
      bytesDownloaded < 4294967296 → totalBytes < 4294967296 →
      catcollar_ota_get_progress_percentage bytesDownloaded totalBytes ≤ 100 := by
  intro b t _ _
  simp only [catcollar_ota_get_progress_percentage]
  split_ifs <;> omega

/-- C7 witness: in-range even with bytes 3 and total 1 (300%). -/
theorem C7_percentage_in_range_witness :
    (3 : Nat) < 4294967296 ∧ (1 : Nat) < 4294967296
    ∧ catcollar_ota_get_progress_percentage 3 1 ≤ 100 :=
  ⟨by decide, by decide, C7_percentage_in_range 3 1 (by decide) (by decide)⟩

/-! Section: the OTA manager state and operations (wifi_ota_manager.c, enhanced
AWS variant)

The C module keeps its state in file-scope statics (lines 38-48).  They
are gathered into one record.  The configuration strings
(hostname/URLs) are never read or written by the control logic modelled
here and are omitted; the scalar configuration fields are kept. -/

/-- Scalar part of `catcollar_ota_config_t` (wifi_ota_config.h, lines
98-107). -/
structure OtaCfg where
  port : Nat
  timeoutMs : Nat
  maxRetryCount : Nat
  certificateIndex : Nat
deriving DecidableEq, Repr

/-- The file-scope statics of wifi_ota_manager.c (lines 38-47):
`ota_current_state`, `ota_last_status`, `ota_response_received`,
`ota_operation_aborted`, `ota_bytes_downloaded`, `ota_total_bytes`,
`ota_retry_count` (a `uint8_t`, held as its value `< 256`), and the
scalar configuration `ota_config`. -/
structure OtaMgr where
  currentState : OtaState
  lastStatus : OtaStatus
  responseReceived : Bool
  operationAborted : Bool
  bytesDownloaded : Nat
  totalBytes : Nat
  retryCount : Nat
  cfg : OtaCfg
deriving DecidableEq, Repr

/-- The externally observable scheduling events of the outer retry loop:
the 5-second inter-retry `osDelay` (line 357) and the start of one
pipeline attempt (the `ota_current_state = OTA_STATE_INITIALIZING`
write, line 360), tagged with the true (unwrapped) iteration index. -/
inductive OtaEvent where
  | retryDelay (ms : Nat)
  | attemptStart (idx : Nat)
deriving DecidableEq, Repr

/-- Outcome of the external steps of one pipeline attempt, as observed by
`ota_perform_update_with_retry`:
* `dnsFail` — `ota_resolve_dns_with_retry` returned non-OK (line 368);
* `httpStartFail` — `sl_si91x_http_otaf_v2` returned something other
  than `SL_STATUS_IN_PROGRESS` (line 439);
* `semTimeout` — `osSemaphoreAcquire` returned `osErrorTimeout`
  (line 435);
* `downloadFail` — the semaphore was released by the HTTP callback
  after a failed event (`ota_response_received == false`, lines 552-556);
* `abortDuringWait` — `catcollar_ota_abort` ran while the caller was
  blocked on the semaphore (line 430);
* `success` — the callback reported success and no abort occurred
  (line 410). -/
inductive AttemptOutcome where
  | dnsFail
  | httpStartFail
  | semTimeout
  | downloadFail
  | abortDuringWait
  | success
deriving DecidableEq, Repr

/-- Oracle for the retry loop: the outcome of the external pipeline steps
of attempt `i`, and whether a concurrent `catcollar_ota_abort` call
completed just before the loop-top read of `ota_operation_aborted` in
iteration `i`. -/
structure OtaEnv where
  outcome : Nat → AttemptOutcome
  abortAtTop : Nat → Bool

/-- The mutation performed by `catcollar_ota_abort` (wifi_ota_manager.c,
lines 279-290): set the abort flag, force `OTA_STATE_FAILED`, and set
`OTA_STATUS_DOWNLOAD_FAILED` — there is no `Aborted` status value. -/
def ota_abort_mutation (s : OtaMgr) : OtaMgr :=
  { s with operationAborted := true,
           currentState := .failed,
           lastStatus := .downloadFailed }

/-- Mirrors `catcollar_ota_abort` (lines 279-290): applies the mutation,
releases the semaphore (not modelled as state) and returns
`SL_STATUS_OK`. -/
def catcollar_ota_abort (s : OtaMgr) : SlStatus × OtaMgr :=
  (.ok, ota_abort_mutation s)

/-- One pipeline attempt after the loop-top abort check and the optional
inter-retry delay (wifi_ota_manager.c, lines 360-442).  Consecutive
assignments to the same static are collapsed to their net effect.  The
input state is the one at line 360; `inl` means "continue the for loop",
`inr` means the function returns. -/
def ota_attempt_step (o : AttemptOutcome) (s : OtaMgr) :
    OtaMgr ⊕ (SlStatus × OtaMgr) :=
  -- lines 360-363: INITIALIZING, reset response flag and byte counters;
  -- line 366: RESOLVING_DNS.
  let sDns : OtaMgr :=
    { s with currentState := .resolvingDns, responseReceived := false,
             bytesDownloaded := 0, totalBytes := 0 }
  match o with
  | .dnsFail =>
    -- lines 368-371: record DNS_RESOLUTION_FAILED and `continue`.
    .inl { sDns with lastStatus := .dnsResolutionFailed }
  | .httpStartFail =>
    -- lines 376-377 then 439-441: DOWNLOADING/IN_PROGRESS, start fails,
    -- DOWNLOAD_FAILED, fall to the loop increment.
    .inl { sDns with currentState := .downloading, lastStatus := .downloadFailed }
  | .semTimeout =>
    -- lines 434-436, `sem_status == osErrorTimeout`: TIMEOUT_ERROR.
    .inl { sDns with currentState := .downloading, lastStatus := .timeoutError }
  | .downloadFail =>
    -- semaphore released by the failure branch of the HTTP callback
    -- (lines 552-556 set FAILED/DOWNLOAD_FAILED), then lines 434-436.
    .inl { sDns with currentState := .failed, lastStatus := .downloadFailed }
  | .abortDuringWait =>
    -- lines 430-432: the concurrent abort already applied its mutation;
    -- the loop returns SL_STATUS_ABORT.
    .inr (.abort, ota_abort_mutation
      { sDns with currentState := .downloading, lastStatus := .downloadInProgress })
  | .success =>
    -- lines 410-427: DOWNLOAD_SUCCESS, INSTALLING, REBOOTING (TA-type
    -- update: no M4 system reset), SUCCESS, return SL_STATUS_OK.  The
    -- callback set `ota_response_received = true` before releasing the
    -- semaphore.
    .inr (.ok, { sDns with currentState := .success, lastStatus := .downloadSuccess,
                           responseReceived := true })

/-- The for loop of `ota_perform_update_with_retry` (lines 349-443).
`c` is the true iteration count; the `uint8_t` counter
`ota_retry_count` holds `c % 256`, so the loop guard is
`c % 256 ≤ max_retry_count` — for `max_retry_count = 255` the guard can
never fail.  `fuel` bounds the number of iterations unrolled; a `none`
result means the loop was still running after `fuel` iterations.
Returns (result, final statics, event trace). -/
def ota_update_loop (env : OtaEnv) :
    Nat → Nat → OtaMgr → Option SlStatus × OtaMgr × List OtaEvent
  | 0, _, s => (none, s, [])
  | fuel + 1, c, s =>
    -- the for-statement assignment/increment of `ota_retry_count`
    let s1 : OtaMgr := { s with retryCount := c % 256 }
    if c % 256 ≤ s1.cfg.maxRetryCount then
      -- line 350: read of the volatile abort flag; a concurrent
      -- `catcollar_ota_abort` that fired before this read has already
      -- applied its state mutation.
      let s2 : OtaMgr := if env.abortAtTop c then ota_abort_mutation s1 else s1
      if s2.operationAborted then
        (some .abort, s2, [])
      else
        -- lines 355-358: 5-second delay before every retry attempt
        let pre : List OtaEvent :=
          if c % 256 > 0 then [OtaEvent.retryDelay 5000] else []
        match ota_attempt_step (env.outcome c) s2 with
        | .inr (r, sT) => (some r, sT, pre ++ [OtaEvent.attemptStart c])
        | .inl sC =>
          let t := ota_update_loop env fuel (c + 1) sC
          (t.1, t.2.1, pre ++ OtaEvent.attemptStart c :: t.2.2)
    else
      -- lines 445-448: all retries exhausted
      (some .fail, { s1 with currentState := .failed }, [])


/-- Mirrors `ota_perform_update_with_retry` (lines 344-449): the retry
loop started at counter 0. -/
def ota_perform_update_with_retry (env : OtaEnv) (fuel : Nat) (s : OtaMgr) :
    Option SlStatus × OtaMgr × List OtaEvent :=
  ota_update_loop env fuel 0 s

/-- Mirrors `catcollar_ota_start_update_with_retry` (lines 186-211).
`wifiConnected` models `catcollar_wifi_connection_get_state() ==
CATCOLLAR_WIFI_CONNECTED`; `maxRetries` is the `uint8_t` argument, so it
is reduced modulo 256 at the boundary.  Note the Wi-Fi check precedes
the busy check and mutates `ota_last_status` on failure. -/
def catcollar_ota_start_update_with_retry (maxRetries : Nat)
    (wifiConnected : Bool) (env : OtaEnv) (fuel : Nat) (s : OtaMgr) :
    Option SlStatus × OtaMgr × List OtaEvent :=
  if ¬ wifiConnected then
    (some .fail, { s with lastStatus := .networkError }, [])
  else if s.currentState ≠ .idle then
    (some .busy, s, [])
  else
    ota_perform_update_with_retry env fuel
      { s with retryCount := 0, operationAborted := false,
               cfg := { s.cfg with maxRetryCount := maxRetries % 256 } }

/-- Mirrors `catcollar_ota_start_update` (lines 181-184): delegates to
`catcollar_ota_start_update_with_retry` with the configured
`max_retry_count`. -/
def catcollar_ota_start_update (wifiConnected : Bool) (env : OtaEnv)
    (fuel : Nat) (s : OtaMgr) : Option SlStatus × OtaMgr × List OtaEvent :=
  catcollar_ota_start_update_with_retry s.cfg.maxRetryCount wifiConnected env fuel s

/-- Mirrors `catcollar_ota_check_for_updates` (lines 127-179).  The
Wi-Fi check again precedes the busy check.  `ota_check_version_from_server`
(lines 508-523) is simulated in the source: it always succeeds and
reports the compiled-in version with `build + 1`, so the comparison
always finds the server newer and the call ends Idle/UpdateAvailable. -/
def catcollar_ota_check_for_updates (wifiConnected : Bool) (s : OtaMgr) :
    SlStatus × OtaMgr :=
  if ¬ wifiConnected then
    (.fail, { s with lastStatus := .networkError })
  else if s.currentState ≠ .idle then
    (.busy, s)
  else
    let cur := catcollar_get_current_version
    let server : FirmwareVersion :=
      { cur with build := (cur.build + 1) % 65536 }
    if ota_compare_versions cur server then
      (.ok, { s with currentState := .idle, lastStatus := .updateAvailable })
    else
      (.ok, { s with currentState := .idle, lastStatus := .noUpdateAvailable })

/-! Section: the DNS retry loop (wifi_ota_manager.c, lines 451-482) -/

/-- Observable events of `ota_resolve_dns_with_retry`: one call of the
underlying `sl_net_dns_resolve_hostname` primitive, and the 2-second
inter-attempt `osDelay` (line 475). -/
inductive DnsEvent where
  | dnsAttempt (idx : Nat)
  | dnsDelay (ms : Nat)
deriving DecidableEq, Repr

/-- Oracle for the DNS loop: whether the `i`-th resolution attempt
succeeds, and the value of the volatile `ota_operation_aborted` flag at
the bottom-of-loop `while` test of iteration `i`. -/
structure DnsEnv where
  resolveOk : Nat → Bool
  abortFlag : Nat → Bool

/-- The do-while of `ota_resolve_dns_with_retry` (lines 459-478), entered
with `dns_retry_count = i` attempts already made.  `OTA_MAX_DNS_RETRY_COUNT`
is 5 (wifi_ota_config.h, line 31).  On failure the loop delays 2 s while
fewer than 5 attempts were made (line 474, before the abort flag is
consulted), then the `while` test exits when 5 attempts were made or the
abort flag is set; the function then returns the last DNS error (line
481, modelled as `SlStatus.fail`), not `SL_STATUS_ABORT`. -/
def ota_resolve_dns_loop (env : DnsEnv) : Nat → Nat → SlStatus × List DnsEvent
  | 0, _ => (.fail, [])
  | fuel + 1, i =>
    if env.resolveOk i then
      (.ok, [.dnsAttempt i])
    else
      let delayTr : List DnsEvent :=
        if i + 1 < 5 then [DnsEvent.dnsDelay 2000] else []
      if i + 1 < 5 && ! env.abortFlag i then
        let t := ota_resolve_dns_loop env fuel (i + 1)
        (t.1, DnsEvent.dnsAttempt i :: delayTr ++ t.2)
      else
        (.fail, DnsEvent.dnsAttempt i :: delayTr)

/-- Mirrors `ota_resolve_dns_with_retry` (lines 451-482): the do-while
started with zero attempts made; 5 iterations of fuel always suffice. -/
def ota_resolve_dns_with_retry (env : DnsEnv) : SlStatus × List DnsEvent :=
  ota_resolve_dns_loop env 5 0

/-! Section: concrete fixtures used by counterexamples and witnesses -/

/-- The default configuration built by `catcollar_ota_init`
(wifi_ota_manager.c, lines 65-79, with the constants of
wifi_ota_config.h): port 443, timeout 900000 ms, 5 retries,
certificate index 0. -/
def defaultCfg : OtaCfg :=
  { port := 443, timeoutMs := 900000, maxRetryCount := 5, certificateIndex := 0 }

/-- The statics right after `ota_reset_state` (lines 586-595). -/
def idleMgr : OtaMgr :=
  { currentState := .idle, lastStatus := .noUpdateAvailable,
    responseReceived := false, operationAborted := false,
    bytesDownloaded := 0, totalBytes := 0, retryCount := 0, cfg := defaultCfg }

/-- A snapshot mid-download, as left by the loop at line 377. -/
def downloadingMgr : OtaMgr :=
  { currentState := .downloading, lastStatus := .downloadInProgress,
    responseReceived := false, operationAborted := false,
    bytesDownloaded := 0, totalBytes := 0, retryCount := 0, cfg := defaultCfg }

/-- Environment in which every DNS resolution of every attempt fails and
no abort is ever requested. -/
def envAllDnsFail : OtaEnv := ⟨fun _ => .dnsFail, fun _ => false⟩

/-- Environment in which `sl_si91x_http_otaf_v2` fails to start on every
attempt and no abort is requested. -/
def envHttpFail : OtaEnv := ⟨fun _ => .httpStartFail, fun _ => false⟩

example :
    catcollar_ota_start_update_with_retry 0 true envHttpFail 3 idleMgr =
      (some .fail,
       { currentState := .failed, lastStatus := .downloadFailed,
         responseReceived := false, operationAborted := false,
         bytesDownloaded := 0, totalBytes := 0, retryCount := 1,
         cfg := { defaultCfg with maxRetryCount := 0 } },
       [.attemptStart 0]) := by decide

example :
    catcollar_ota_start_update_with_retry 1 true envAllDnsFail 4 idleMgr =
      (some .fail,
       { currentState := .failed, lastStatus := .dnsResolutionFailed,
         responseReceived := false, operationAborted := false,
         bytesDownloaded := 0, totalBytes := 0, retryCount := 2,
         cfg := { defaultCfg with maxRetryCount := 1 } },
       [.attemptStart 0, .retryDelay 5000, .attemptStart 1]) := by decide

/-- Environment in which an abort is observed at the top of the very
first loop iteration. -/
def envAbortAtTop : OtaEnv := ⟨fun _ => .dnsFail, fun _ => true⟩

/-- C10: `catcollar_ota_start_update()` is observationally equivalent to
`catcollar_ota_start_update_with_retry` applied to the configured
`max_retry_count`: same result, same state mutation, same event trace,
in every state and environment. -/
theorem C10_start_update_delegates :
    ∀ (wifiConnected : Bool) (env : OtaEnv) (fuel : Nat) (s : OtaMgr),
      catcollar_ota_start_update wifiConnected env fuel s =
        catcollar_ota_start_update_with_retry s.cfg.maxRetryCount
          wifiConnected env fuel s :=
  fun _ _ _ _ => rfl

/-- C1 counterexample: with Wi-Fi disconnected and the machine in
`Downloading` (≠ Idle), `catcollar_ota_check_for_updates` and
`catcollar_ota_start_update_with_retry` return `SL_STATUS_FAIL` — not
`Busy` — and mutate `ota_last_status` to `NETWORK_ERROR`, because the
Wi-Fi check precedes the busy check. -/
theorem C1_busy_counterexample :
    downloadingMgr.currentState ≠ .idle
    ∧ (catcollar_ota_check_for_updates false downloadingMgr).1 ≠ .busy
    ∧ (catcollar_ota_check_for_updates false downloadingMgr).2 ≠ downloadingMgr
    ∧ (catcollar_ota_check_for_updates false downloadingMgr).2.lastStatus
        = .networkError
    ∧ (catcollar_ota_start_update_with_retry 5 false envAllDnsFail 10
        downloadingMgr).1 ≠ some .busy
    ∧ (catcollar_ota_start_update_with_retry 5 false envAllDnsFail 10
        downloadingMgr).2.1 ≠ downloadingMgr := by
  refine ⟨by decide, by decide, by decide, by decide, by decide, by decide⟩

/-- C1 (amended): provided Wi-Fi is connected, a call to
`catcollar_ota_check_for_updates` or
`catcollar_ota_start_update_with_retry` issued while the state machine is
not Idle returns `SL_STATUS_BUSY` synchronously and leaves every
orchestrator field unchanged (and performs no external step); when Wi-Fi
is down the calls instead return `SL_STATUS_FAIL` and overwrite the last
status with `NETWORK_ERROR` regardless of the current state. -/
theorem C1_busy_amended :
    ∀ s : OtaMgr, s.currentState ≠ .idle →
      (catcollar_ota_check_for_updates true s = (.busy, s))
      ∧ (∀ (m : Nat) (env : OtaEnv) (fuel : Nat),
          catcollar_ota_start_update_with_retry m true env fuel s =
            (some .busy, s, []))
      ∧ (∀ s2 : OtaMgr,
          catcollar_ota_check_for_updates false s2 =
            (.fail, { s2 with lastStatus := .networkError })) := by
  intro s h
  refine ⟨?_, ?_, ?_⟩
  · simp [catcollar_ota_check_for_updates, h]
  · intro m env fuel
    simp [catcollar_ota_start_update_with_retry, h]
  · intro s2
    simp [catcollar_ota_check_for_updates]

/-- C1 witness: the amended busy behaviour at the concrete
mid-download state. -/
theorem C1_busy_amended_witness :
    downloadingMgr.currentState ≠ .idle
    ∧ catcollar_ota_check_for_updates true downloadingMgr = (.busy, downloadingMgr)
    ∧ catcollar_ota_start_update_with_retry 5 true envAllDnsFail 10 downloadingMgr
        = (some .busy, downloadingMgr, []) :=
  ⟨by decide,
   (C1_busy_amended downloadingMgr (by decide)).1,
   (C1_busy_amended downloadingMgr (by decide)).2.1 5 envAllDnsFail 10⟩

/-- C3 counterexample: aborting a download drives the state to `Failed`
but sets `ota_last_status` to `DOWNLOAD_FAILED` — the same status a
genuinely failed download produces (`catcollar_ota_status_t` has no
`Aborted` member at all), so `catcollar_ota_get_status` cannot
distinguish a user-cancelled operation from a failed one. -/
theorem C3_abort_status_counterexample :
    downloadingMgr.currentState ≠ .idle
    ∧ (catcollar_ota_abort downloadingMgr).2.currentState = .failed
    ∧ (catcollar_ota_abort downloadingMgr).2.lastStatus = .downloadFailed
    ∧ (catcollar_ota_start_update_with_retry 0 true envHttpFail 3
        idleMgr).2.1.lastStatus = .downloadFailed
    ∧ (catcollar_ota_abort downloadingMgr).2.lastStatus =
        (catcollar_ota_start_update_with_retry 0 true envHttpFail 3
          idleMgr).2.1.lastStatus := by
  refine ⟨by decide, by decide, by decide, by decide, by decide⟩

/-- C3 (amended): `catcollar_ota_abort` always succeeds, sets the abort
flag and forces state `Failed` with status `DownloadFailed` (there is no
distinct `Aborted` status, so `get_status` reports an aborted operation
exactly like a failed download); the in-flight retry loop that observes
the abort flag at the top of an iteration stops immediately and returns
the distinct `SL_STATUS_ABORT` result to the caller of `start_update` —
only that return value, not the polled status, distinguishes
cancellation. -/
theorem C3_abort_amended :
    (∀ s : OtaMgr, catcollar_ota_abort s = (.ok, ota_abort_mutation s))
    ∧ (∀ s : OtaMgr,
        (ota_abort_mutation s).currentState = .failed
        ∧ (ota_abort_mutation s).lastStatus = .downloadFailed
        ∧ (ota_abort_mutation s).operationAborted = true)
    ∧ (∀ (env : OtaEnv) (fuel c : Nat) (s : OtaMgr),
        env.abortAtTop c = true → c % 256 ≤ s.cfg.maxRetryCount →
        ota_update_loop env (fuel + 1) c s =
          (some .abort, ota_abort_mutation { s with retryCount := c % 256 }, [])) := by
  refine ⟨fun s => rfl, fun s => ⟨rfl, rfl, rfl⟩, ?_⟩
  intro env fuel c s h1 h2
  simp [ota_update_loop, h1, h2, ota_abort_mutation]

/-- C3 witness: the loop-top abort observation at iteration 0 of a
freshly started update. -/
theorem C3_abort_amended_witness :
    envAbortAtTop.abortAtTop 0 = true
    ∧ (0 : Nat) % 256 ≤ idleMgr.cfg.maxRetryCount
    ∧ ota_update_loop envAbortAtTop 2 0 idleMgr =
        (some .abort, ota_abort_mutation { idleMgr with retryCount := 0 % 256 }, []) :=
  ⟨rfl, by decide,
    C3_abort_amended.2.2 envAbortAtTop 1 0 idleMgr rfl (by decide)⟩

/-! Section: the retry-count and delay shape of the outer loop (claim C2) -/

/-- Outcomes after which the for loop continues with the next attempt
(every failure mode that neither aborts nor succeeds). -/
def continuingOutcome : AttemptOutcome → Bool
  | .dnsFail => true
  | .httpStartFail => true
  | .semTimeout => true
  | .downloadFail => true
  | .abortDuringWait => false
  | .success => false

/-- The `ota_last_status` value a continuing failure leaves behind. -/
def continuingStatus : AttemptOutcome → OtaStatus
  | .dnsFail => .dnsResolutionFailed
  | .semTimeout => .timeoutError
  | _ => .downloadFailed

/-- The expected event trace of `n` consecutive attempts starting at
iteration `c`: a 5-second delay before every attempt whose `uint8_t`
counter value is non-zero, none before iteration 0. -/
def otaTraceFrom : Nat → Nat → List OtaEvent
  | _, 0 => []
  | c, n + 1 =>
    (if c % 256 > 0 then [OtaEvent.retryDelay 5000] else []) ++
      OtaEvent.attemptStart c :: otaTraceFrom (c + 1) n

/-- Number of pipeline attempts recorded in a trace. -/
def countAttempts : List OtaEvent → Nat
  | [] => 0
  | OtaEvent.attemptStart _ :: tr => countAttempts tr + 1
  | _ :: tr => countAttempts tr

/-- Number of inter-retry delays recorded in a trace. -/
def countDelays : List OtaEvent → Nat
  | [] => 0
  | OtaEvent.retryDelay _ :: tr => countDelays tr + 1
  | _ :: tr => countDelays tr

theorem countAttempts_append (l1 l2 : List OtaEvent) :
    countAttempts (l1 ++ l2) = countAttempts l1 + countAttempts l2 := by
  induction l1 with
  | nil => simp [countAttempts]
  | cons h t ih => cases h <;> simp [countAttempts, ih] <;> omega

theorem countDelays_append (l1 l2 : List OtaEvent) :
    countDelays (l1 ++ l2) = countDelays l1 + countDelays l2 := by
  induction l1 with
  | nil => simp [countDelays]
  | cons h t ih => cases h <;> simp [countDelays, ih] <;> omega

theorem countAttempts_otaTraceFrom (n : Nat) :
    ∀ c, countAttempts (otaTraceFrom c n) = n := by
  induction n with
  | zero => intro c; simp [otaTraceFrom, countAttempts]
  | succ n ih =>
    intro c
    simp only [otaTraceFrom, countAttempts_append]
    split_ifs <;> simp [countAttempts, ih]

theorem countDelays_otaTraceFrom (n : Nat) :
    ∀ c, 1 ≤ c → c + n ≤ 255 → countDelays (otaTraceFrom c n) = n := by
  induction n with
  | zero => intro c _ _; simp [otaTraceFrom, countDelays]
  | succ n ih =>
    intro c hc hn
    have hcm : c % 256 = c := Nat.mod_eq_of_lt (by omega)
    simp only [otaTraceFrom, countDelays_append]
    rw [if_pos (by omega : c % 256 > 0)]
    simp [countDelays, ih (c + 1) (by omega) (by omega)]
    omega


theorem countDelays_otaTraceFrom_zero (m : Nat) (hm : m ≤ 254) :
    countDelays (otaTraceFrom 0 (m + 1)) = m := by
  simp only [otaTraceFrom]
  rw [if_neg (by decide : ¬ (0 % 256 > 0))]
  simp only [List.nil_append, countDelays]
  exact countDelays_otaTraceFrom m 1 (by omega) (by omega)

/-- The state the loop continues with after a continuing-failure attempt
(the `.inl` branch of `ota_attempt_step`). -/
def contState (o : AttemptOutcome) (s : OtaMgr) : OtaMgr :=
  match o with
  | .dnsFail =>
    { s with currentState := .resolvingDns, responseReceived := false,
             bytesDownloaded := 0, totalBytes := 0,
             lastStatus := .dnsResolutionFailed }
  | .httpStartFail =>
    { s with currentState := .downloading, responseReceived := false,
             bytesDownloaded := 0, totalBytes := 0,
             lastStatus := .downloadFailed }
  | .semTimeout =>
    { s with currentState := .downloading, responseReceived := false,
             bytesDownloaded := 0, totalBytes := 0,
             lastStatus := .timeoutError }
  | _ =>
    { s with currentState := .failed, responseReceived := false,
             bytesDownloaded := 0, totalBytes := 0,
             lastStatus := .downloadFailed }

theorem ota_attempt_step_cont (o : AttemptOutcome) (s : OtaMgr)
    (ho : continuingOutcome o = true) :
    ota_attempt_step o s = .inl (contState o s) := by
  cases o <;> first
    | rfl
    | simp [continuingOutcome] at ho

theorem contState_lastStatus (o : AttemptOutcome) (s : OtaMgr)
    (ho : continuingOutcome o = true) :
    (contState o s).lastStatus = continuingStatus o := by
  cases o <;> first
    | rfl
    | simp [continuingOutcome] at ho

theorem contState_cfg (o : AttemptOutcome) (s : OtaMgr) :
    (contState o s).cfg = s.cfg := by
  cases o <;> rfl

theorem contState_operationAborted (o : AttemptOutcome) (s : OtaMgr) :
    (contState o s).operationAborted = s.operationAborted := by
  cases o <;> rfl

/-- Collapsing a full overwrite of the attempt-visible fields: writing
all six of them after `contState` is the same as writing them over the
original state. -/
theorem contState_overwrite (o : AttemptOutcome) (s : OtaMgr)
    (st : OtaState) (ls : OtaStatus) (rr : Bool) (rc r1 : Nat) :
    ({ contState o { s with retryCount := r1 } with
        currentState := st, lastStatus := ls, responseReceived := rr,
        bytesDownloaded := 0, totalBytes := 0, retryCount := rc } : OtaMgr) =
    { s with currentState := st, lastStatus := ls, responseReceived := rr,
             bytesDownloaded := 0, totalBytes := 0, retryCount := rc } := by
  cases o <;> rfl

/-- One-step unfolding of the retry loop for a continuing failure. -/
theorem ota_update_loop_cont (env : OtaEnv) (f c : Nat) (s : OtaMgr)
    (hcond : c % 256 ≤ s.cfg.maxRetryCount)
    (habE : env.abortAtTop c = false)
    (hnab : s.operationAborted = false)
    (ho : continuingOutcome (env.outcome c) = true) :
    ota_update_loop env (f + 1) c s =
      ((ota_update_loop env f (c + 1)
          (contState (env.outcome c) { s with retryCount := c % 256 })).1,
       (ota_update_loop env f (c + 1)
          (contState (env.outcome c) { s with retryCount := c % 256 })).2.1,
       (if c % 256 > 0 then [OtaEvent.retryDelay 5000] else []) ++
         OtaEvent.attemptStart c ::
           (ota_update_loop env f (c + 1)
             (contState (env.outcome c) { s with retryCount := c % 256 })).2.2) := by
  simp only [ota_update_loop, habE, Bool.false_eq_true, if_false,
    ota_attempt_step_cont (env.outcome c) _ ho]
  rw [if_pos hcond, if_neg (by simp [hnab])]

/-- One-step unfolding of the retry loop at the exit test. -/
theorem ota_update_loop_exit (env : OtaEnv) (f c : Nat) (s : OtaMgr)
    (hcond : ¬ (c % 256 ≤ s.cfg.maxRetryCount)) :
    ota_update_loop env (f + 1) c s =
      (some .fail, { s with retryCount := c % 256, currentState := .failed }, []) := by
  simp only [ota_update_loop]
  rw [if_neg hcond]

/-- If every attempt fails with a continuing failure and no abort is ever
observed, the loop started at iteration `c ≤ m` runs the attempts
`c, …, m`, exits with `SL_STATUS_FAIL`, forces `OTA_STATE_FAILED`, and
leaves the status of the last attempt. -/
theorem ota_loop_allFail (env : OtaEnv) (m : Nat) (hm : m ≤ 254)
    (hout : ∀ k, continuingOutcome (env.outcome k) = true)
    (hab : ∀ k, env.abortAtTop k = false) :
    ∀ (fuel c : Nat) (s : OtaMgr), s.cfg.maxRetryCount = m →
      c ≤ m → m + 2 - c ≤ fuel → s.operationAborted = false →
      ota_update_loop env fuel c s =
        (some .fail,
         { s with currentState := .failed,
                  lastStatus := continuingStatus (env.outcome m),
                  responseReceived := false, bytesDownloaded := 0,
                  totalBytes := 0, retryCount := (m + 1) % 256 },
         otaTraceFrom c (m + 1 - c)) := by
  intro fuel
  induction fuel with
  | zero => intro c s _ hc hf _; omega
  | succ f ih =>
    intro c s hcfg hc hf habt
    have hcm : c % 256 = c := Nat.mod_eq_of_lt (by omega)
    have htr : m + 1 - c = (m - c) + 1 := by omega
    rw [ota_update_loop_cont env f c s (by omega) (hab c) habt (hout c)]
    rcases Nat.lt_or_ge c m with hlt | hge
    · rw [ih (c + 1) _ (by rw [contState_cfg]; exact hcfg) (by omega) (by omega)
        (by rw [contState_operationAborted]; exact habt)]
      rw [htr]
      simp only [otaTraceFrom]
      rw [show m + 1 - (c + 1) = m - c from by omega,
        contState_overwrite (env.outcome c) s .failed
          (continuingStatus (env.outcome m)) false ((m + 1) % 256) (c % 256)]
    · have hce : c = m := by omega
      subst hce
      obtain ⟨f2, rfl⟩ : ∃ f2, f = f2 + 1 := ⟨f - 1, by omega⟩
      rw [ota_update_loop_exit env f2 (c + 1) _
        (by rw [contState_cfg]
            simp only [hcfg]
            rw [Nat.mod_eq_of_lt (by omega : c + 1 < 256)]
            omega)]
      rw [htr]
      simp only [otaTraceFrom, Nat.sub_self]
      rcases ho2 : env.outcome c with _ | _ | _ | _ | _ | _
      case abortDuringWait =>
        have h := hout c
        rw [ho2] at h
        simp [continuingOutcome] at h
      case success =>
        have h := hout c
        rw [ho2] at h
        simp [continuingOutcome] at h
      all_goals rfl

/-- One-step unfolding of the retry loop for a terminal attempt
(success or abort-during-wait). -/
theorem ota_update_loop_term (env : OtaEnv) (f c : Nat) (s : OtaMgr)
    (hcond : c % 256 ≤ s.cfg.maxRetryCount)
    (habE : env.abortAtTop c = false)
    (hnab : s.operationAborted = false)
    (r : SlStatus) (sT : OtaMgr)
    (hstep : ota_attempt_step (env.outcome c) { s with retryCount := c % 256 } =
      .inr (r, sT)) :
    ota_update_loop env (f + 1) c s =
      (some r, sT,
       (if c % 256 > 0 then [OtaEvent.retryDelay 5000] else []) ++
         [OtaEvent.attemptStart c]) := by
  simp only [ota_update_loop, habE, Bool.false_eq_true, if_false, hstep]
  rw [if_pos hcond, if_neg (by simp [hnab])]

/-- If the attempts before `j` fail with continuing failures, no abort is
observed up to `j`, and attempt `j` fully succeeds, the loop started at
iteration `c ≤ j` performs the attempts `c, …, j` only, returns
`SL_STATUS_OK` immediately and ends in `OTA_STATE_SUCCESS`. -/
theorem ota_loop_success (env : OtaEnv) (m j : Nat) (hj : j ≤ m) (hm : m ≤ 254)
    (hout : ∀ k, k < j → continuingOutcome (env.outcome k) = true)
    (hsucc : env.outcome j = .success)
    (hab : ∀ k, k ≤ j → env.abortAtTop k = false) :
    ∀ (fuel c : Nat) (s : OtaMgr), s.cfg.maxRetryCount = m →
      c ≤ j → j + 1 - c ≤ fuel → s.operationAborted = false →
      ota_update_loop env fuel c s =
        (some .ok,
         { s with currentState := .success, lastStatus := .downloadSuccess,
                  responseReceived := true, bytesDownloaded := 0,
                  totalBytes := 0, retryCount := j % 256 },
         otaTraceFrom c (j + 1 - c)) := by
  intro fuel
  induction fuel with
  | zero => intro c s _ hc hf _; omega
  | succ f ih =>
    intro c s hcfg hc hf habt
    have hcm : c % 256 = c := Nat.mod_eq_of_lt (by omega)
    have htr : j + 1 - c = (j - c) + 1 := by omega
    rcases Nat.lt_or_ge c j with hlt | hge
    · rw [ota_update_loop_cont env f c s (by omega) (hab c (by omega)) habt
        (hout c hlt)]
      rw [ih (c + 1) _ (by rw [contState_cfg]; exact hcfg) (by omega) (by omega)
        (by rw [contState_operationAborted]; exact habt)]
      rw [htr]
      simp only [otaTraceFrom]
      rw [show j + 1 - (c + 1) = j - c from by omega,
        contState_overwrite (env.outcome c) s .success .downloadSuccess true
          (j % 256) (c % 256)]
    · have hce : c = j := by omega
      subst hce
      have hstep2 : ota_attempt_step (env.outcome c) { s with retryCount := c % 256 } =
          .inr (SlStatus.ok,
            { s with currentState := OtaState.success,
                     lastStatus := OtaStatus.downloadSuccess,
                     responseReceived := true, bytesDownloaded := 0,
                     totalBytes := 0, retryCount := c % 256 }) := by
        rw [hsucc]
        rfl
      rw [ota_update_loop_term env f c s (by omega) (hab c (by omega)) habt
        _ _ hstep2]
      rw [htr]
      simp only [otaTraceFrom, Nat.sub_self]

/-- With `max_retry_count = 255` the `uint8_t` loop counter wraps before
the guard can fail, so under all-failing attempts the loop never
returns, whatever the fuel. -/
theorem ota_loop_wrap_diverges (env : OtaEnv)
    (hout : ∀ k, continuingOutcome (env.outcome k) = true)
    (hab : ∀ k, env.abortAtTop k = false) :
    ∀ (fuel c : Nat) (s : OtaMgr), s.cfg.maxRetryCount = 255 →
      s.operationAborted = false →
      (ota_update_loop env fuel c s).1 = none := by
  intro fuel
  induction fuel with
  | zero => intro c s _ _; rfl
  | succ f ih =>
    intro c s hcfg habt
    rw [ota_update_loop_cont env f c s
      (by rw [hcfg]; exact Nat.le_of_lt_succ (Nat.mod_lt _ (by omega)))
      (hab c) habt (hout c)]
    exact ih (c + 1) _ (by rw [contState_cfg]; exact hcfg)
      (by rw [contState_operationAborted]; exact habt)

/-- C2 counterexample: the claim quantifies over every configured
`max_retries`, but `max_retries` and the loop counter are `uint8_t`;
with `max_retries = 255` the counter wraps (`255 + 1 ≡ 0`) before the
guard `ota_retry_count <= max_retry_count` can fail, so with every
attempt failing the loop has already performed 258 attempts within 258
iterations of fuel and is still running — it never performs "exactly
`max_retries + 1 = 256` attempts and ends in `Failed`". -/
theorem C2_retry_counterexample :
    countAttempts ((catcollar_ota_start_update_with_retry 255 true
        envAllDnsFail 258 idleMgr).2.2) = 258
    ∧ (catcollar_ota_start_update_with_retry 255 true
        envAllDnsFail 258 idleMgr).1 = none := by
  constructor <;> decide

/-- C2 (amended): for every configured `max_retries ≤ 254`, when every
attempt fails the retry loop performs exactly `max_retries + 1`
attempts, waits the fixed 5-second delay before each attempt after the
first and never before the first, ends in `Failed` carrying the last
attempt's status and returns `SL_STATUS_FAIL`; when an attempt fully
succeeds the loop returns `SL_STATUS_OK` immediately after it, ending in
`Success`.  For `max_retries = 255` the 8-bit loop counter wraps and the
loop never returns, whatever the fuel. -/
theorem C2_retry_loop_amended :
    (∀ (env : OtaEnv) (m : Nat) (s : OtaMgr) (fuel : Nat),
      m ≤ 254 →
      (∀ k, continuingOutcome (env.outcome k) = true) →
      (∀ k, env.abortAtTop k = false) →
      s.cfg.maxRetryCount = m → s.operationAborted = false →
      m + 2 ≤ fuel →
      ota_perform_update_with_retry env fuel s =
        (some .fail,
         { s with currentState := .failed,
                  lastStatus := continuingStatus (env.outcome m),
                  responseReceived := false, bytesDownloaded := 0,
                  totalBytes := 0, retryCount := (m + 1) % 256 },
         otaTraceFrom 0 (m + 1))
      ∧ countAttempts (otaTraceFrom 0 (m + 1)) = m + 1
      ∧ countDelays (otaTraceFrom 0 (m + 1)) = m)
    ∧ (∀ (env : OtaEnv) (m j : Nat) (s : OtaMgr) (fuel : Nat),
      j ≤ m → m ≤ 254 →
      (∀ k, k < j → continuingOutcome (env.outcome k) = true) →
      env.outcome j = .success →
      (∀ k, k ≤ j → env.abortAtTop k = false) →
      s.cfg.maxRetryCount = m → s.operationAborted = false →
      j + 1 ≤ fuel →
      ota_perform_update_with_retry env fuel s =
        (some .ok,
         { s with currentState := .success, lastStatus := .downloadSuccess,
                  responseReceived := true, bytesDownloaded := 0,
                  totalBytes := 0, retryCount := j % 256 },
         otaTraceFrom 0 (j + 1))
      ∧ countAttempts (otaTraceFrom 0 (j + 1)) = j + 1)
    ∧ (∀ (env : OtaEnv) (s : OtaMgr) (fuel : Nat),
      (∀ k, continuingOutcome (env.outcome k) = true) →
      (∀ k, env.abortAtTop k = false) →
      s.cfg.maxRetryCount = 255 → s.operationAborted = false →
      (ota_perform_update_with_retry env fuel s).1 = none) := by
  refine ⟨?_, ?_, ?_⟩
  · intro env m s fuel hm hout habE hcfg habt hfuel
    refine ⟨?_, countAttempts_otaTraceFrom (m + 1) 0,
      countDelays_otaTraceFrom_zero m hm⟩
    exact ota_loop_allFail env m hm hout habE fuel 0 s hcfg (by omega)
      (by omega) habt
  · intro env m j s fuel hj hm hout hsucc habE hcfg habt hfuel
    refine ⟨?_, countAttempts_otaTraceFrom (j + 1) 0⟩
    exact ota_loop_success env m j hj hm hout hsucc habE fuel 0 s hcfg
      (by omega) (by omega) habt
  · intro env s fuel hout habE hcfg habt
    exact ota_loop_wrap_diverges env hout habE fuel 0 s hcfg habt

/-- Environment where the first attempt fails at the download stage and
the second attempt succeeds. -/
def envSecondTrySucceeds : OtaEnv :=
  ⟨fun k => if k = 0 then .downloadFail else .success, fun _ => false⟩

/-- C2 witness: the amended theorem at `max_retries = 2` with all
attempts failing (3 attempts, 2 delays, Failed), and at a second-attempt
success (2 attempts, immediate Success). -/
theorem C2_retry_loop_amended_witness :
    (ota_perform_update_with_retry envAllDnsFail 4
        { idleMgr with cfg := { defaultCfg with maxRetryCount := 2 } } =
      (some .fail,
       { { idleMgr with cfg := { defaultCfg with maxRetryCount := 2 } } with
           currentState := .failed,
           lastStatus := continuingStatus (envAllDnsFail.outcome 2),
           responseReceived := false, bytesDownloaded := 0,
           totalBytes := 0, retryCount := (2 + 1) % 256 },
       otaTraceFrom 0 (2 + 1))
      ∧ countAttempts (otaTraceFrom 0 (2 + 1)) = 2 + 1
      ∧ countDelays (otaTraceFrom 0 (2 + 1)) = 2)
    ∧ (ota_perform_update_with_retry envSecondTrySucceeds 4
        { idleMgr with cfg := { defaultCfg with maxRetryCount := 2 } } =
      (some .ok,
       { { idleMgr with cfg := { defaultCfg with maxRetryCount := 2 } } with
           currentState := .success, lastStatus := .downloadSuccess,
           responseReceived := true, bytesDownloaded := 0,
           totalBytes := 0, retryCount := 1 % 256 },
       otaTraceFrom 0 (1 + 1))
      ∧ countAttempts (otaTraceFrom 0 (1 + 1)) = 1 + 1) :=
  ⟨C2_retry_loop_amended.1 envAllDnsFail 2
      { idleMgr with cfg := { defaultCfg with maxRetryCount := 2 } } 4
      (by omega) (fun k => rfl) (fun k => rfl) rfl rfl (by omega),
   C2_retry_loop_amended.2.1 envSecondTrySucceeds 2 1
      { idleMgr with cfg := { defaultCfg with maxRetryCount := 2 } } 4
      (by omega) (by omega)
      (by intro k hk
          interval_cases k
          rfl)
      rfl (fun k _ => rfl) rfl rfl (by omega)⟩

/-- Number of resolution attempts recorded in a DNS trace. -/
def countDnsAttempts : List DnsEvent → Nat
  | [] => 0
  | DnsEvent.dnsAttempt _ :: tr => countDnsAttempts tr + 1
  | _ :: tr => countDnsAttempts tr

theorem countDnsAttempts_append (l1 l2 : List DnsEvent) :
    countDnsAttempts (l1 ++ l2) = countDnsAttempts l1 + countDnsAttempts l2 := by
  induction l1 with
  | nil => simp [countDnsAttempts]
  | cons h t ih => cases h <;> simp [countDnsAttempts, ih] <;> omega

theorem countDnsAttempts_delayTr (b : Prop) [Decidable b] :
    countDnsAttempts (if b then [DnsEvent.dnsDelay 2000] else []) = 0 := by
  split_ifs <;> rfl

theorem dns_loop_attempts_le (env : DnsEnv) :
    ∀ fuel i, countDnsAttempts (ota_resolve_dns_loop env fuel i).2 ≤ fuel := by
  intro fuel
  induction fuel with
  | zero => intro i; simp [ota_resolve_dns_loop, countDnsAttempts]
  | succ f ih =>
    intro i
    simp only [ota_resolve_dns_loop]
    by_cases h1 : env.resolveOk i = true
    · simp [h1, countDnsAttempts]
    · simp only [h1, Bool.false_eq_true, if_false]
      by_cases h2 : (i + 1 < 5 && ! env.abortFlag i) = true
      · simp only [h2, if_true, countDnsAttempts, countDnsAttempts_append,
          countDnsAttempts_delayTr]
        have := ih (i + 1)
        omega
      · simp only [h2, if_false, countDnsAttempts, countDnsAttempts_append,
          countDnsAttempts_delayTr]
        omega

/-- Environment where resolution always fails and the abort flag is
already set when the loop first samples it. -/
def envDnsAbortPending : DnsEnv := ⟨fun _ => false, fun _ => true⟩

/-- Environment where resolution always fails and no abort occurs. -/
def envDnsAllFail : DnsEnv := ⟨fun _ => false, fun _ => false⟩

/-- C8 counterexample: with the abort flag set before the call and the
primitive failing, `ota_resolve_dns_with_retry` still performs a first
attempt (the do-while tests the flag only at the loop bottom, never
before an attempt), still sleeps the 2-second delay after that final
attempt, and then returns the last DNS error — not `SL_STATUS_ABORT` —
contradicting "checks the abort flag before each attempt … returns
Aborted immediately without consuming a further attempt". -/
theorem C8_dns_counterexample :
    ota_resolve_dns_with_retry envDnsAbortPending =
      (.fail, [.dnsAttempt 0, .dnsDelay 2000])
    ∧ SlStatus.fail ≠ SlStatus.abort
    ∧ countDnsAttempts [DnsEvent.dnsAttempt 0, DnsEvent.dnsDelay 2000] = 1 := by
  refine ⟨by decide, by decide, by decide⟩

/-- C8 (amended): the DNS loop performs at most 5 resolution attempts;
with the primitive always failing and no abort, it performs exactly 5
attempts separated by four 2-second delays with none after the fifth and
returns the last error; a successful attempt returns `SL_STATUS_OK`
immediately with no further attempt and no delay; the abort flag is
sampled once per iteration at the loop bottom — after the delay — and
when found set the loop stops retrying but still returns the last DNS
error, not a distinct `Aborted` code. -/
theorem C8_dns_retry_amended :
    (∀ env : DnsEnv,
      countDnsAttempts (ota_resolve_dns_with_retry env).2 ≤ 5)
    ∧ (∀ env : DnsEnv,
      (∀ i, env.resolveOk i = false) → (∀ i, env.abortFlag i = false) →
      ota_resolve_dns_with_retry env =
        (.fail, [.dnsAttempt 0, .dnsDelay 2000, .dnsAttempt 1, .dnsDelay 2000,
                 .dnsAttempt 2, .dnsDelay 2000, .dnsAttempt 3, .dnsDelay 2000,
                 .dnsAttempt 4]))
    ∧ (∀ (env : DnsEnv) (i fuel : Nat), env.resolveOk i = true →
      ota_resolve_dns_loop env (fuel + 1) i = (.ok, [.dnsAttempt i]))
    ∧ (∀ (env : DnsEnv) (i fuel : Nat), env.resolveOk i = false →
      env.abortFlag i = true → i + 1 < 5 →
      ota_resolve_dns_loop env (fuel + 1) i =
        (.fail, [.dnsAttempt i, .dnsDelay 2000])) := by
  refine ⟨fun env => dns_loop_attempts_le env 5 0, ?_, ?_, ?_⟩
  · intro env h1 h2
    simp [ota_resolve_dns_with_retry, ota_resolve_dns_loop, h1, h2]
  · intro env i fuel h1
    simp [ota_resolve_dns_loop, h1]
  · intro env i fuel h1 h2 h3
    simp [ota_resolve_dns_loop, h1, h2, h3]

/-- C8 witness: the all-fail no-abort clause at a concrete environment. -/
theorem C8_dns_retry_amended_witness :
    envDnsAllFail.resolveOk 0 = false ∧ envDnsAllFail.abortFlag 0 = false
    ∧ ota_resolve_dns_with_retry envDnsAllFail =
        (.fail, [.dnsAttempt 0, .dnsDelay 2000, .dnsAttempt 1, .dnsDelay 2000,
                 .dnsAttempt 2, .dnsDelay 2000, .dnsAttempt 3, .dnsDelay 2000,
                 .dnsAttempt 4]) :=
  ⟨rfl, rfl,
    C8_dns_retry_amended.2.1 envDnsAllFail (fun _ => rfl) (fun _ => rfl)⟩
